import Mathlib

/-!
Verification of the adaptive batch downloader (`src/main.rs`).

The development shallowly embeds the program's core: the batch-size
arithmetic performed in `Downloader::start`, the feasibility check
`Downloader::check_memory_availability`, the per-item download state
machine `Downloader::download_file`, the per-tick statistics fold of the
scheduling loop, and the size probe `Downloader::get_file_size`.

Floating-point values (`f64`) that the source derives from machine
integers (byte counts divided by 1024·1024) are modelled as exact
rationals; the two non-finite cases the source can actually reach
(`x / 0.0` with `x > 0` giving `+inf`, `0.0 / 0.0` giving NaN) and the
saturating `as usize` cast are modelled explicitly by `FpVal` and
`fpToUsize`.  Machine counters (`usize`, `u64`) are modelled as `Nat`;
the `as usize` saturation bound is `USIZE_MAX` (64-bit platform).
-/

namespace AutoFastDl

/-- `usize::MAX` on the 64-bit platforms the tool targets; Rust's
saturating `f64 as usize` cast clamps to this value. -/
def USIZE_MAX : Nat := 2 ^ 64 - 1

/-- The values the `f64` intermediate `available_memory_mb / file_size_mb * 2.0`
can take when both operands are nonnegative: a finite rational, `+inf`
(positive numerator divided by `0.0`), or NaN (`0.0 / 0.0`). -/
inductive FpVal where
  | fin (q : ℚ)
  | posInf
  | nan
deriving DecidableEq, Repr

/-- `a / b` in `f64` for the nonnegative operands occurring in the source:
division by `0.0` yields `+inf` when `a ≠ 0` and NaN when `a = 0`. -/
def fpDiv (a b : ℚ) : FpVal :=
  if b = 0 then (if a = 0 then FpVal.nan else FpVal.posInf) else FpVal.fin (a / b)

/-- Multiplication of the intermediate by the literal `2.0`. -/
def fpMulTwo : FpVal → FpVal
  | FpVal.fin q => FpVal.fin (q * 2)
  | FpVal.posInf => FpVal.posInf
  | FpVal.nan => FpVal.nan

/-- Rust's `as usize` cast on an `f64`: truncation toward zero, saturating
at `0` and `usize::MAX`; NaN casts to `0`. -/
def fpToUsize : FpVal → Nat
  | FpVal.fin q => min USIZE_MAX (Int.toNat ⌊q⌋)
  | FpVal.posInf => USIZE_MAX
  | FpVal.nan => 0

/-- `std::cmp::max(1, (available_memory_mb / file_size_mb * 2.0) as usize)`
from `Downloader::start` (src/main.rs line 211). -/
def safe_batch_size (available_memory_mb file_size_mb : ℚ) : Nat :=
  max 1 (fpToUsize (fpMulTwo (fpDiv available_memory_mb file_size_mb)))

/-- `std::cmp::min(batch_size, safe_batch_size)` from `Downloader::start`
(src/main.rs line 212): the batch size actually used by the loop. -/
def compute_batch_size (requested : Nat) (available_memory_mb file_size_mb : ℚ) : Nat :=
  min requested (safe_batch_size available_memory_mb file_size_mb)

/-- The batch-size formula as the specification words it:
`min(requested, max(1, floor(available_mb / item_mb * 2)))`. -/
def compute_batch_size_spec (requested : Nat) (available_mb item_mb : ℚ) : Nat :=
  min requested (max 1 (Int.toNat ⌊available_mb / item_mb * 2⌋))

/-- `Downloader::check_memory_availability` (src/main.rs lines 65-81):
`available_memory_mb > batch_size as f64 * estimated_file_size_mb`. -/
def check_memory_availability (available_memory_mb : ℚ) (batch_size : Nat)
    (estimated_file_size_mb : ℚ) : Bool :=
  decide (available_memory_mb > (batch_size : ℚ) * estimated_file_size_mb)

/-- Conversion of a byte count to megabytes: `bytes as f64 / 1024.0 / 1024.0`. -/
def mbOfBytes (bytes : Nat) : ℚ :=
  (bytes : ℚ) / 1024 / 1024

theorem mbOfBytes_nonneg (bytes : Nat) : 0 ≤ mbOfBytes bytes := by
  unfold mbOfBytes
  positivity

/-- C1: for every requested batch size in `[1, usize::MAX]`, available
memory `> 0` and estimated item size `> 0`, the batch-size computation of
`Downloader::start` returns `min(requested, max(1, floor(available_mb / item_mb * 2)))`,
a value that always lies in `[1, requested]`. -/
theorem compute_batch_size_correct (requested : Nat) (a e : ℚ)
    (hreq : 1 ≤ requested) (hmax : requested ≤ USIZE_MAX) (ha : 0 < a) (he : 0 < e) :
    compute_batch_size requested a e = compute_batch_size_spec requested a e ∧
    1 ≤ compute_batch_size requested a e ∧
    compute_batch_size requested a e ≤ requested := by
  have hne : e ≠ 0 := ne_of_gt he
  simp only [compute_batch_size, compute_batch_size_spec, safe_batch_size, fpDiv,
    if_neg hne, fpMulTwo, fpToUsize]
  generalize USIZE_MAX = u at hmax
  generalize Int.toNat ⌊a / e * 2⌋ = t
  omega

theorem compute_batch_size_correct_witness :
    compute_batch_size 20 1000 10 = compute_batch_size_spec 20 1000 10 ∧
    1 ≤ compute_batch_size 20 1000 10 ∧
    compute_batch_size 20 1000 10 ≤ 20 :=
  compute_batch_size_correct 20 1000 10 (by norm_num) (by norm_num [USIZE_MAX])
    (by norm_num) (by norm_num)

/-- C6: when the estimated item size is zero (the probed `Content-Length`
was `0`, the only way the nonnegative quantity `file_size_mb` can fail to
be strictly positive) and available memory is positive, the division
produces `+inf` rather than faulting, the saturating cast yields
`usize::MAX`, and the computed batch size falls back to the requested
size. -/
theorem compute_batch_size_zero_item_size (requested : Nat) (a : ℚ)
    (hmax : requested ≤ USIZE_MAX) (ha : 0 < a) :
    compute_batch_size requested a 0 = requested := by
  have hne : a ≠ 0 := ne_of_gt ha
  have h1 : fpDiv a 0 = FpVal.posInf := by simp [fpDiv, hne]
  simp only [compute_batch_size, safe_batch_size, h1, fpMulTwo, fpToUsize]
  generalize USIZE_MAX = u at hmax ⊢
  omega

theorem compute_batch_size_zero_item_size_witness :
    compute_batch_size 20 1000 0 = 20 :=
  compute_batch_size_zero_item_size 20 1000 (by norm_num [USIZE_MAX]) (by norm_num)

/-- C5: the feasibility check of `Downloader::check_memory_availability`
returns `true` exactly when available memory strictly exceeds
`batch_size * estimated_file_size_mb`; in particular it returns `false`
whenever `available_mb ≤ batch_size * item_mb`. -/
theorem check_memory_availability_spec (a e : ℚ) (b : Nat) :
    (check_memory_availability a b e = true ↔ a > (b : ℚ) * e) ∧
    (a ≤ (b : ℚ) * e → check_memory_availability a b e = false) := by
  unfold check_memory_availability
  constructor
  · exact decide_eq_true_iff
  · intro h
    exact decide_eq_false (not_lt.mpr h)

theorem check_memory_availability_spec_witness :
    check_memory_availability 5 2 3 = false :=
  (check_memory_availability_spec 5 3 2).2 (by norm_num)

/-! ## Per-item download state machine and statistics

`DownloadStats` mirrors the `DownloadStats` struct; the `tokio::sync::Mutex`
around it serializes every mutation, so a tick is modelled as a fold of the
items' critical sections in one serialization order, followed by the
batch-level `total_files` update that `Downloader::start` performs after
`join_all`.  The environment of one item (`ItemEnv`) supplies the outcomes
of its external effects: the GET send (`SendResult`, carrying the status
code and the body read when the send succeeded), the process memory
reading taken by `get_memory_usage_mb`, and whether `save_to_disk` would
succeed. -/

/-- The `DownloadStats` struct (src/main.rs lines 20-26). -/
structure DownloadStats where
  total_files : Nat
  failed_downloads : Nat
  total_bytes : Nat
  start_time : Option Nat
deriving DecidableEq, Repr

/-- Outcome of `client.get(url).send()`: transport error, or a response
with a status code and the result of reading its body (`none` when
`response.bytes()` fails, otherwise the body length). -/
inductive SendResult where
  | err
  | ok (status : Nat) (bodyRead : Option Nat)
deriving DecidableEq, Repr

/-- The external effects observed by one `download_file` invocation. -/
structure ItemEnv where
  send : SendResult
  procMemBytes : Nat
  diskWriteOk : Bool
deriving DecidableEq, Repr

/-- Where a successful item's content ended up. -/
inductive Placement where
  | memory
  | disk
deriving DecidableEq, Repr

/-- The outcome of one item, as classified by `download_file`. -/
inductive ItemResult where
  | failure
  | success (bytes : Nat) (placement : Placement)
deriving DecidableEq, Repr

/-- Everything one `download_file` call produces: the stats after its
critical sections, its result, whether it persisted the content to disk,
and how often it bumped the per-tick progress bar. -/
structure ItemStep where
  stats : DownloadStats
  result : ItemResult
  wroteDisk : Bool
  barInc : Nat
deriving DecidableEq, Repr

/-- `StatusCode::is_success()`: a 2xx status. -/
def is_success (status : Nat) : Bool :=
  decide (200 ≤ status) && decide (status < 300)

/-- `Downloader::download_file` (src/main.rs lines 109-169): issue the GET
(failure counts a failed download), check the status code, read the body,
then either account the bytes in memory (when
`memory_usage_mb + content_size_mb < max_memory_mb`) or persist to disk
and account the bytes; every failure path increments `failed_downloads`
exactly once, every success path bumps the progress bar once. -/
def download_file (budget : Nat) (env : ItemEnv) (s : DownloadStats) : ItemStep :=
  match env.send with
  | SendResult.err =>
      ⟨{ s with failed_downloads := s.failed_downloads + 1 }, ItemResult.failure, false, 0⟩
  | SendResult.ok status bodyRead =>
      if is_success status then
        match bodyRead with
        | none =>
            ⟨{ s with failed_downloads := s.failed_downloads + 1 }, ItemResult.failure, false, 0⟩
        | some len =>
            if mbOfBytes env.procMemBytes + mbOfBytes len < (budget : ℚ) then
              ⟨{ s with total_bytes := s.total_bytes + len },
                ItemResult.success len Placement.memory, false, 1⟩
            else if env.diskWriteOk then
              ⟨{ s with total_bytes := s.total_bytes + len },
                ItemResult.success len Placement.disk, true, 1⟩
            else
              ⟨{ s with failed_downloads := s.failed_downloads + 1 },
                ItemResult.failure, false, 0⟩
      else
        ⟨{ s with failed_downloads := s.failed_downloads + 1 }, ItemResult.failure, false, 0⟩

/-- The result an item's environment determines (it does not depend on the
stats the item starts from). -/
def item_result (budget : Nat) (env : ItemEnv) : ItemResult :=
  (download_file budget env ⟨0, 0, 0, none⟩).result

/-- Whether an item result is a success (`Ok` in the source). -/
def isSuccess : ItemResult → Bool
  | ItemResult.success _ _ => true
  | ItemResult.failure => false

/-- The byte count an item result contributes to `total_bytes`. -/
def resultBytes : ItemResult → Nat
  | ItemResult.success b _ => b
  | ItemResult.failure => 0

/-- One serialization of a batch's item critical sections: fold
`download_file` over the items, collecting each item's result (the `Vec`
of joined results in `Downloader::start`). -/
def run_items (budget : Nat) (envs : List ItemEnv) (s : DownloadStats) :
    DownloadStats × List ItemResult :=
  match envs with
  | [] => (s, [])
  | e :: rest =>
      let step := download_file budget e s
      let r := run_items budget rest step.stats
      (r.1, step.result :: r.2)

/-- One tick of `Downloader::start` (src/main.rs lines 240-285): run the
batch, then add the number of `Ok` results to `total_files` in a final
critical section. -/
def run_tick (budget : Nat) (envs : List ItemEnv) (s : DownloadStats) : DownloadStats :=
  let r := run_items budget envs s
  { r.1 with total_files := r.1.total_files + (r.2.filter (fun x => isSuccess x)).length }

/-- A sequence of ticks sharing the run's budget. -/
def run_ticks (budget : Nat) (ticks : List (List ItemEnv)) (s : DownloadStats) : DownloadStats :=
  match ticks with
  | [] => s
  | t :: rest => run_ticks budget rest (run_tick budget t s)

/-- The stats states at which the mutex is free during one tick, in the
chosen serialization order: the state before the batch, the state after
each item's critical section, and the state after the batch-level
`total_files` update. -/
def item_states (budget : Nat) (envs : List ItemEnv) (s : DownloadStats) : List DownloadStats :=
  match envs with
  | [] => []
  | e :: rest =>
      let s' := (download_file budget e s).stats
      s' :: item_states budget rest s'

def tick_observable_states (budget : Nat) (envs : List ItemEnv) (s : DownloadStats) :
    List DownloadStats :=
  s :: item_states budget envs s ++ [run_tick budget envs s]

/-! ### Characterization lemmas -/

theorem download_file_result_stats (budget : Nat) (env : ItemEnv) (s : DownloadStats) :
    (download_file budget env s).result = item_result budget env ∧
    (download_file budget env s).stats =
      (match item_result budget env with
       | ItemResult.failure => { s with failed_downloads := s.failed_downloads + 1 }
       | ItemResult.success b _ => { s with total_bytes := s.total_bytes + b }) := by
  rcases env with ⟨send, pm, dw⟩
  cases send with
  | err => simp [download_file, item_result]
  | ok status bodyRead =>
    by_cases hs : is_success status = true
    · cases bodyRead with
      | none => simp [download_file, item_result, hs]
      | some len =>
        by_cases hm : mbOfBytes pm + mbOfBytes len < (budget : ℚ)
        · simp [download_file, item_result, hs, hm]
        · cases dw <;> simp [download_file, item_result, hs, hm]
    · simp [download_file, item_result, hs]

theorem run_items_spec (budget : Nat) (envs : List ItemEnv) (s : DownloadStats) :
    run_items budget envs s =
      (⟨s.total_files,
        s.failed_downloads + envs.countP (fun e => !(isSuccess (item_result budget e))),
        s.total_bytes + (envs.map (fun e => resultBytes (item_result budget e))).sum,
        s.start_time⟩,
       envs.map (item_result budget)) := by
  induction envs generalizing s with
  | nil => simp [run_items]
  | cons e rest ih =>
    obtain ⟨h1, h2⟩ := download_file_result_stats budget e s
    simp only [run_items, ih, h1, h2, List.countP_cons, List.map_cons, List.sum_cons,
      Prod.mk.injEq, DownloadStats.mk.injEq]
    rcases hres : item_result budget e with _ | ⟨b, p⟩ <;>
      simp [hres, isSuccess, resultBytes] <;> omega

theorem run_tick_spec (budget : Nat) (envs : List ItemEnv) (s : DownloadStats) :
    run_tick budget envs s =
      ⟨s.total_files + envs.countP (fun e => isSuccess (item_result budget e)),
       s.failed_downloads + envs.countP (fun e => !(isSuccess (item_result budget e))),
       s.total_bytes + (envs.map (fun e => resultBytes (item_result budget e))).sum,
       s.start_time⟩ := by
  simp only [run_tick, run_items_spec, List.countP_eq_length_filter, List.filter_map,
    List.length_map, Function.comp_def]

theorem countP_add_countP_not {α : Type} (p : α → Bool) (l : List α) :
    l.countP p + l.countP (fun a => !(p a)) = l.length := by
  induction l with
  | nil => simp
  | cons a l ih =>
    by_cases h : p a = true <;> simp [List.countP_cons, h] <;> omega

theorem run_ticks_files_failed (budget : Nat) (ticks : List (List ItemEnv))
    (s : DownloadStats) :
    (run_ticks budget ticks s).total_files + (run_ticks budget ticks s).failed_downloads
      = s.total_files + s.failed_downloads + (ticks.map List.length).sum := by
  induction ticks generalizing s with
  | nil => simp [run_ticks]
  | cons t rest ih =>
    simp only [run_ticks, ih, run_tick_spec, List.map_cons, List.sum_cons]
    have := countP_add_countP_not (fun e => isSuccess (item_result budget e)) t
    omega

/-! ### Claims about the statistics and the memory budget -/

/-- C2: a tick that issued `N` download attempts of which `F` failed
increases `total_files` by exactly `N - F`, `failed_downloads` by exactly
`F`, and `total_bytes` by the sum of the successful items' byte counts
(whatever each item's placement); consequently, starting from the default
stats, after any sequence of ticks `total_files + failed_downloads`
equals the number of download attempts issued. -/
theorem tick_stats_deltas (budget : Nat) (envs : List ItemEnv) (s : DownloadStats) :
    (run_tick budget envs s).total_files
        = s.total_files
          + (envs.length - envs.countP (fun e => !(isSuccess (item_result budget e)))) ∧
    (run_tick budget envs s).failed_downloads
        = s.failed_downloads + envs.countP (fun e => !(isSuccess (item_result budget e))) ∧
    (run_tick budget envs s).total_bytes
        = s.total_bytes + (envs.map (fun e => resultBytes (item_result budget e))).sum ∧
    ∀ ticks : List (List ItemEnv),
      (run_ticks budget ticks ⟨0, 0, 0, none⟩).total_files
          + (run_ticks budget ticks ⟨0, 0, 0, none⟩).failed_downloads
        = (ticks.map List.length).sum := by
  refine ⟨?_, ?_, ?_, ?_⟩
  · have := countP_add_countP_not (fun e => isSuccess (item_result budget e)) envs
    simp only [run_tick_spec]
    omega
  · simp [run_tick_spec]
  · simp [run_tick_spec]
  · intro ticks
    have := run_ticks_files_failed budget ticks ⟨0, 0, 0, none⟩
    simpa using this

/-- The single conditional store `self.max_memory_mb.store(0, ..)` of
`Downloader::start` (src/main.rs lines 216-219), as the list of writes it
performs to the shared budget. -/
def admission_writes (feasible : Bool) : List Nat :=
  if feasible then [] else [0]

/-- The budget value every later `download_file` reads. -/
def budget_after_admission (configured : Nat) (feasible : Bool) : Nat :=
  if feasible then configured else 0

theorem item_result_budget_zero_disk (env : ItemEnv) (b : Nat) (p : Placement)
    (h : item_result 0 env = ItemResult.success b p) : p = Placement.disk := by
  rcases env with ⟨send, pm, dw⟩
  cases send with
  | err => simp [item_result, download_file] at h
  | ok status bodyRead =>
    by_cases hs : is_success status = true
    · cases bodyRead with
      | none => simp [item_result, download_file, hs] at h
      | some len =>
        have hm : ¬ (mbOfBytes pm + mbOfBytes len < (0 : ℚ)) := by
          have h1 := mbOfBytes_nonneg pm
          have h2 := mbOfBytes_nonneg len
          linarith
        cases dw with
        | false => simp [item_result, download_file, hs, hm] at h
        | true =>
          simp [item_result, download_file, hs, hm] at h
          exact h.2.symm
    · simp [item_result, download_file, hs] at h

/-- C3: the shared memory budget starts at the configured value; the
admission phase performs at most one write to it, writing `0` exactly
when the feasibility check fails; the value every item reads afterwards
never exceeds the configured one (never increased); and when the budget
has collapsed to `0`, every successful item of every later batch takes
the disk placement. -/
theorem memory_budget_one_way (configured : Nat) (a e : ℚ) (batch : Nat)
    (envs : List ItemEnv) (s : DownloadStats) (b : Nat) (p : Placement)
    (hmem : ItemResult.success b p ∈ (run_items 0 envs s).2) :
    (admission_writes (check_memory_availability a batch e)).length ≤ 1 ∧
    (admission_writes (check_memory_availability a batch e) = [0] ↔
        check_memory_availability a batch e = false) ∧
    budget_after_admission configured (check_memory_availability a batch e) ≤ configured ∧
    p = Placement.disk := by
  refine ⟨?_, ?_, ?_, ?_⟩
  · unfold admission_writes
    split <;> simp
  · unfold admission_writes
    rcases h : check_memory_availability a batch e <;> simp
  · unfold budget_after_admission
    split <;> omega
  · rw [run_items_spec] at hmem
    simp only [List.mem_map] at hmem
    obtain ⟨env, _, henv⟩ := hmem
    exact item_result_budget_zero_disk env b p henv

theorem memory_budget_one_way_witness :
    (admission_writes (check_memory_availability 50 20 10)).length ≤ 1 ∧
    (admission_writes (check_memory_availability 50 20 10) = [0] ↔
        check_memory_availability 50 20 10 = false) ∧
    budget_after_admission 300 (check_memory_availability 50 20 10) ≤ 300 ∧
    Placement.disk = Placement.disk := by
  have hm : ¬ (mbOfBytes 0 + mbOfBytes 5 < (0 : ℚ)) := by
    norm_num [mbOfBytes]
  exact memory_budget_one_way 300 50 10 20 [⟨SendResult.ok 200 (some 5), 0, true⟩]
    ⟨0, 0, 0, none⟩ 5 Placement.disk
    (by simp [run_items, download_file, is_success, hm])

/-- C4: for an item whose fetch succeeded (2xx status, body of `len`
bytes read), `download_file` keeps the content memory-resident (byte
count recorded, nothing persisted) exactly when
`process_usage_mb + content_mb` is strictly below the budget; otherwise
it persists the content to the download directory (when the write
succeeds) and still records the byte count; and every successful item, in
either placement, bumps the per-tick progress bar by exactly one. -/
theorem download_file_placement (budget : Nat) (env : ItemEnv) (s : DownloadStats)
    (status : Nat) (len : Nat)
    (hsend : env.send = SendResult.ok status (some len))
    (hok : is_success status = true) :
    (mbOfBytes env.procMemBytes + mbOfBytes len < (budget : ℚ) →
      (download_file budget env s).result = ItemResult.success len Placement.memory ∧
      (download_file budget env s).wroteDisk = false ∧
      (download_file budget env s).stats.total_bytes = s.total_bytes + len ∧
      (download_file budget env s).barInc = 1) ∧
    (¬ (mbOfBytes env.procMemBytes + mbOfBytes len < (budget : ℚ)) →
      env.diskWriteOk = true →
      (download_file budget env s).result = ItemResult.success len Placement.disk ∧
      (download_file budget env s).wroteDisk = true ∧
      (download_file budget env s).stats.total_bytes = s.total_bytes + len ∧
      (download_file budget env s).barInc = 1) ∧
    (∀ b p, (download_file budget env s).result = ItemResult.success b p →
      (download_file budget env s).barInc = 1) := by
  rcases env with ⟨send, pm, dw⟩
  simp only at hsend
  subst hsend
  refine ⟨fun hm => ?_, fun hm hdw => ?_, fun b p hr => ?_⟩
  · simp [download_file, hok, hm]
  · simp only at hdw
    subst hdw
    simp [download_file, hok, hm]
  · by_cases hm : mbOfBytes pm + mbOfBytes len < (budget : ℚ)
    · simp [download_file, hok, hm]
    · cases dw <;> simp [download_file, hok, hm] at hr ⊢

theorem download_file_placement_witness :
    (download_file 300 ⟨SendResult.ok 200 (some 5), 0, true⟩ ⟨0, 0, 0, none⟩).result
        = ItemResult.success 5 Placement.memory ∧
    (download_file 300 ⟨SendResult.ok 200 (some 5), 0, true⟩ ⟨0, 0, 0, none⟩).wroteDisk
        = false ∧
    (download_file 300 ⟨SendResult.ok 200 (some 5), 0, true⟩ ⟨0, 0, 0, none⟩).stats.total_bytes
        = 0 + 5 ∧
    (download_file 300 ⟨SendResult.ok 200 (some 5), 0, true⟩ ⟨0, 0, 0, none⟩).barInc = 1 :=
  (download_file_placement 300 ⟨SendResult.ok 200 (some 5), 0, true⟩ ⟨0, 0, 0, none⟩ 200 5
      rfl (by norm_num [is_success])).1
    (by norm_num [mbOfBytes])

/-- C8 counterexample: the claim that a reader can never observe the byte
count of a successful outcome without its file count fails on the code:
`total_bytes` is added inside the item's own critical section of
`download_file`, while `total_files` is only incremented in the
batch-level critical section after `join_all`.  For a single successful
5-byte item under a 300 MB budget, the mutex-free state
`⟨0, 0, 5, none⟩` — its bytes counted, its file not — is observable
between the two critical sections, even though the item's outcome is a
success that the end-of-tick state `⟨1, 0, 5, none⟩` does count. -/
theorem stats_split_update_cex :
    (⟨0, 0, 5, none⟩ : DownloadStats) ∈
      tick_observable_states 300 [⟨SendResult.ok 200 (some 5), 0, true⟩] ⟨0, 0, 0, none⟩ ∧
    item_result 300 ⟨SendResult.ok 200 (some 5), 0, true⟩
        = ItemResult.success 5 Placement.memory ∧
    run_tick 300 [⟨SendResult.ok 200 (some 5), 0, true⟩] ⟨0, 0, 0, none⟩
        = ⟨1, 0, 5, none⟩ := by
  have hm : mbOfBytes 0 + mbOfBytes 5 < (300 : ℚ) := by
    norm_num [mbOfBytes]
  refine ⟨?_, ?_, ?_⟩ <;>
    simp [tick_observable_states, item_states, run_tick, run_items, download_file,
      item_result, is_success, isSuccess, hm]

/-- C8 (amended): all statistics mutations go through the mutex, so the
updates of concurrently completing items within one tick are serialized
and none is lost or double-counted — the tick's resulting stats are the
same for every serialization (completion) order of its items. -/
theorem run_tick_perm_invariant (budget : Nat) (l1 l2 : List ItemEnv) (s : DownloadStats)
    (h : List.Perm l1 l2) :
    run_tick budget l1 s = run_tick budget l2 s := by
  rw [run_tick_spec, run_tick_spec]
  have hc1 := h.countP_eq (fun e => isSuccess (item_result budget e))
  have hc2 := h.countP_eq (fun e => !(isSuccess (item_result budget e)))
  have hs := (h.map (fun e => resultBytes (item_result budget e))).sum_eq
  rw [hc1, hc2, hs]

/-- A sample item whose fetch succeeds with a 5-byte body. -/
def envOkSmall : ItemEnv := ⟨SendResult.ok 200 (some 5), 0, true⟩

/-- A sample item whose GET send fails. -/
def envSendErr : ItemEnv := ⟨SendResult.err, 0, true⟩

theorem run_tick_perm_invariant_witness :
    run_tick 300 [envSendErr, envOkSmall] ⟨0, 0, 0, none⟩
      = run_tick 300 [envOkSmall, envSendErr] ⟨0, 0, 0, none⟩ :=
  run_tick_perm_invariant 300 [envSendErr, envOkSmall] [envOkSmall, envSendErr]
    ⟨0, 0, 0, none⟩ (List.Perm.swap envOkSmall envSendErr [])

/-! ## The scheduling loop, cancellation, and startup

The loop body of `Downloader::start` is a `tokio::select!` racing the
`ctrl_c` future against a 1-second sleep; the chosen branch runs to
completion before the next `select!` evaluation, so an execution is a
sequence of resolved wait-phase outcomes (`LoopEvent`): either the timer
elapsed and a full batch ran (carrying its items' environments), or the
cancellation future resolved and the loop broke.  A signal arriving while
a batch is in flight is not polled until the next wait phase, i.e. it
appears as a `cancel` event after that batch's `tick` event. -/

/-- One resolution of the loop's wait phase. -/
inductive LoopEvent where
  | cancel
  | tick (envs : List ItemEnv)
deriving DecidableEq

/-- The loop of `Downloader::start` (src/main.rs lines 234-287): process
events until the first `cancel`, folding each tick's batch into the
stats; returns the stats at loop exit and the number of batches
executed. -/
def scheduler_run (budget : Nat) (events : List LoopEvent) (s : DownloadStats) :
    DownloadStats × Nat :=
  match events with
  | [] => (s, 0)
  | LoopEvent.cancel :: _ => (s, 0)
  | LoopEvent.tick envs :: rest =>
      let r := scheduler_run budget rest (run_tick budget envs s)
      (r.1, r.2 + 1)

/-- C7: cancellation is observed only in the wait phase.  For any run
whose wait phases resolve as `pre` (no cancellation yet), then a batch
`envs` with the cancellation signal arriving while it is in flight (so
the `cancel` resolution follows the batch's event), the run's final state
is exactly the state after `pre` with the last batch fully folded into
the statistics — the in-flight batch completes and is counted before
shutdown, and nothing after the cancellation runs. -/
theorem cancellation_only_between_batches (budget : Nat) (pre : List LoopEvent)
    (envs : List ItemEnv) (rest : List LoopEvent) (s : DownloadStats)
    (h : LoopEvent.cancel ∉ pre) :
    scheduler_run budget (pre ++ LoopEvent.tick envs :: LoopEvent.cancel :: rest) s
      = (run_tick budget envs (scheduler_run budget pre s).1,
         (scheduler_run budget pre s).2 + 1) := by
  induction pre generalizing s with
  | nil => simp [scheduler_run]
  | cons ev pre ih =>
    cases ev with
    | cancel => exact absurd (List.mem_cons_self _ _) h
    | tick t =>
      have h' : LoopEvent.cancel ∉ pre := fun hc => h (List.mem_cons_of_mem _ hc)
      simp [scheduler_run, ih (run_tick budget t s) h']

theorem cancellation_only_between_batches_witness :
    scheduler_run 300 ([] ++ LoopEvent.tick [envSendErr] :: LoopEvent.cancel
        :: [LoopEvent.tick []]) ⟨0, 0, 0, none⟩
      = (run_tick 300 [envSendErr] (scheduler_run 300 [] ⟨0, 0, 0, none⟩).1,
         (scheduler_run 300 [] ⟨0, 0, 0, none⟩).2 + 1) :=
  cancellation_only_between_batches 300 [] [envSendErr] [LoopEvent.tick []]
    ⟨0, 0, 0, none⟩ (by simp)

/-! ## The size probe and startup sequencing -/

/-- `u64::from_str` on the `Content-Length` header value: an optional
leading plus sign, then one or more ASCII digits, and the value must fit
in 64 bits. -/
def parse_u64 (s : String) : Option Nat :=
  let ds := match s.data with
    | '+' :: rest => rest
    | cs => cs
  if ds = [] then none
  else if ds.all (fun c => c.isDigit) then
    let v := ds.foldl (fun a c => a * 10 + (c.toNat - 48)) 0
    if v < 2 ^ 64 then some v else none
  else none

/-- `Downloader::get_file_size` (src/main.rs lines 88-98): the HEAD
response either carries a `Content-Length` header value or not; a missing
header or an unparsable value is an error. -/
def get_file_size (contentLength : Option String) : Except String Nat :=
  match contentLength with
  | none => Except.error ("Content-Length not provided")
  | some v =>
    match parse_u64 v with
    | some n => Except.ok n
    | none => Except.error ("Failed to parse Content-Length")

/-- The fatal startup errors of `Downloader::start`. -/
inductive StartError where
  | invalidUrl
  | sizeUnavailable (msg : String)
deriving DecidableEq

/-- What a run produced: the propagated fatal error or the stats at exit,
together with the number of batches that executed. -/
structure RunReport where
  result : Except StartError DownloadStats
  batchesExecuted : Nat

/-- `str::starts_with` on the target string, at the character level. -/
def starts_with (s p : String) : Bool :=
  List.isPrefixOf p.data s.data

/-- `Downloader::start` (src/main.rs lines 195-292): default the batch
size to 20, reject a target without an `http://` or `https://` scheme,
probe the size (propagating its error with `?` before the loop), compute
the batch size, run the one-time feasibility check that may collapse the
budget to 0, record the start time, then drive the loop. -/
def start_model (url : String) (batch_size : Option Nat) (contentLength : Option String)
    (availableMemBytes : Nat) (configuredBudgetMb : Nat) (startTimestamp : Nat)
    (events : List LoopEvent) : RunReport :=
  let requested := batch_size.getD 20
  if ¬ (starts_with url ("http://") || starts_with url ("https://")) then
    ⟨Except.error StartError.invalidUrl, 0⟩
  else
    match get_file_size contentLength with
    | Except.error e => ⟨Except.error (StartError.sizeUnavailable e), 0⟩
    | Except.ok file_size =>
      let file_size_mb := mbOfBytes file_size
      let available_memory_mb := mbOfBytes availableMemBytes
      let actual_batch_size := compute_batch_size requested available_memory_mb file_size_mb
      let budget := budget_after_admission configuredBudgetMb
        (check_memory_availability available_memory_mb actual_batch_size file_size_mb)
      let r := scheduler_run budget events ⟨0, 0, 0, some startTimestamp⟩
      ⟨Except.ok r.1, r.2⟩

/-- C9: when the metadata probe's response lacks a `Content-Length`
header, the run aborts with the size-unavailable error before the
scheduling loop starts, so no batch is ever executed. -/
theorem missing_size_header_aborts (url : String) (batch_size : Option Nat)
    (availableMemBytes configuredBudgetMb startTimestamp : Nat) (events : List LoopEvent)
    (hurl : (starts_with url ("http://") || starts_with url ("https://")) = true) :
    (start_model url batch_size none availableMemBytes configuredBudgetMb startTimestamp
        events).result
      = Except.error (StartError.sizeUnavailable ("Content-Length not provided")) ∧
    (start_model url batch_size none availableMemBytes configuredBudgetMb startTimestamp
        events).batchesExecuted = 0 := by
  simp [start_model, hurl, get_file_size]

theorem missing_size_header_aborts_witness :
    (start_model ("http://example.com/x") none none 1000000 300 0 []).result
      = Except.error (StartError.sizeUnavailable ("Content-Length not provided")) ∧
    (start_model ("http://example.com/x") none none 1000000 300 0 []).batchesExecuted = 0 :=
  missing_size_header_aborts ("http://example.com/x") none 1000000 300 0 [] (by decide)

/-- C10: a `Content-Length` header value that does not parse as a
non-negative 64-bit decimal integer is also fatal: `get_file_size`
returns an error and the run aborts before the loop starts with a
size-unavailable error and zero batches executed, exactly as when the
header is absent. -/
theorem unparsable_size_header_aborts (url : String) (batch_size : Option Nat)
    (v : String) (availableMemBytes configuredBudgetMb startTimestamp : Nat)
    (events : List LoopEvent)
    (hurl : (starts_with url ("http://") || starts_with url ("https://")) = true)
    (hparse : parse_u64 v = none) :
    (start_model url batch_size (some v) availableMemBytes configuredBudgetMb startTimestamp
        events).result
      = Except.error (StartError.sizeUnavailable ("Failed to parse Content-Length")) ∧
    (start_model url batch_size (some v) availableMemBytes configuredBudgetMb startTimestamp
        events).batchesExecuted = 0 := by
  simp [start_model, hurl, get_file_size, hparse]

theorem unparsable_size_header_aborts_witness :
    (start_model ("https://example.com/x") none (some ("12abc")) 1000000 300 0 []).result
      = Except.error (StartError.sizeUnavailable ("Failed to parse Content-Length")) ∧
    (start_model ("https://example.com/x") none (some ("12abc")) 1000000 300 0
        []).batchesExecuted = 0 :=
  unparsable_size_header_aborts ("https://example.com/x") none ("12abc") 1000000 300 0 []
    (by decide) (by decide)

end AutoFastDl
